import Mathlib

/-
Shallow embedding of the authorization and credential core of gdcli
(src/drive-service.ts, src/cli.ts).  The collaborator modules
account-storage.ts, drive-oauth-flow.ts and types.ts are imported by
drive-service.ts but are not present in the tree; their behaviour is
modelled from the specification (spec.md sections 3, 4.1-4.4, 7), as
marked on each definition.  Query-string construction for listFiles and
search is embedded directly from drive-service.ts.
-/

/-- Error taxonomy of the core (spec.md section 7).  The source throws
plain Error values with descriptive messages; the spec classifies them
into these kinds.  invalidCredentials models the rejection of empty
client credentials by the set-credentials validation. -/
inductive GdError where
  | notConfigured
  | duplicateAccount
  | accountNotFound
  | stateMismatch
  | userDenied
  | authorizationTimeout
  | tokenExchangeFailed
  | reauthorizationRequired
  | storageIOError
  | invalidCredentials
deriving DecidableEq

deriving instance DecidableEq for Except

/-- The single OAuth client identity shared by all accounts. -/
structure ClientCredentials where
  clientId : String
  clientSecret : String
deriving DecidableEq

/-- One stored account record.  The source groups clientId, clientSecret,
refreshToken and accessToken under an oauth2 sub-object
(drive-service.ts lines 36-39); the fields are flattened here.
accessTokenExpiry is the expiry timestamp the spec pairs with the cached
access token (spec.md section 3). -/
structure DriveAccount where
  email : String
  clientId : String
  clientSecret : String
  refreshToken : String
  accessToken : Option String
  accessTokenExpiry : Option Nat
deriving DecidableEq

/-- Modelled from the spec: account-storage.ts is not in the tree.  The
durable store holds the singleton client credentials and the account
list in insertion order (spec.md sections 3, 4.1, 4.2). -/
structure AccountStorage where
  credentials : Option ClientCredentials
  accounts : List DriveAccount
deriving DecidableEq

/-- Modelled from the spec: membership probe used by DriveService.addAccount
(drive-service.ts line 29). -/
def AccountStorage.hasAccount (st : AccountStorage) (email : String) : Bool :=
  st.accounts.any (fun a => a.email == email)

/-- Modelled from the spec: lookup returning the record or a not-found
signal (spec.md section 4.2). -/
def AccountStorage.getAccount (st : AccountStorage) (email : String) : Option DriveAccount :=
  st.accounts.find? (fun a => a.email == email)

/-- Modelled from the spec: account-storage.ts is not in the tree.
Add fails with DuplicateAccount if the identity is already present
(spec.md section 4.2); a record without a usable refresh token is not
persisted (spec.md section 3). -/
def AccountStorage.addAccount (st : AccountStorage) (a : DriveAccount) :
    Except GdError AccountStorage :=
  if st.hasAccount a.email then Except.error GdError.duplicateAccount
  else if a.refreshToken = "" then Except.error GdError.storageIOError
  else Except.ok { st with accounts := st.accounts ++ [a] }

/-- Modelled from the spec: remove returns whether a record existed and
never raises for a missing identity (spec.md section 4.2). -/
def AccountStorage.deleteAccount (st : AccountStorage) (email : String) :
    Bool × AccountStorage :=
  (st.hasAccount email,
   { st with accounts := st.accounts.filter (fun a => a.email != email) })

/-- Modelled from the spec: returns the stored pair or a not-configured
signal, never raising (spec.md section 4.1). -/
def AccountStorage.getCredentials (st : AccountStorage) : Option ClientCredentials :=
  st.credentials

/-- Modelled from the spec: validates both parts non-empty, then persists,
replacing any prior value wholesale; overwrite is not an error
(spec.md section 4.1). -/
def AccountStorage.setCredentials (st : AccountStorage) (clientId clientSecret : String) :
    Except GdError AccountStorage :=
  if clientId = "" ∨ clientSecret = "" then Except.error GdError.invalidCredentials
  else Except.ok { st with credentials := some { clientId := clientId, clientSecret := clientSecret } }

/-- Modelled from the spec: the atomic read-modify-write of one record's
token fields used exclusively by the token accessor (spec.md section 4.2). -/
def AccountStorage.updateTokens (st : AccountStorage) (email tok : String) (exp : Nat) :
    AccountStorage :=
  { st with accounts := st.accounts.map (fun a =>
      if a.email == email then { a with accessToken := some tok, accessTokenExpiry := some exp }
      else a) }

/-- Embedding of DriveService.addAccount (drive-service.ts lines 28-42):
the duplicate check runs first and only then is the OAuth flow invoked.
The whole interactive authorization (DriveOAuthFlow.authorize, which
performs the network consent and token exchange) is abstracted as the
authorize oracle; the Nat in the result counts its invocations. -/
def DriveService.addAccount (st : AccountStorage) (email clientId clientSecret : String)
    (manual : Bool) (authorize : Bool → Except GdError String) :
    Except GdError AccountStorage × Nat :=
  if st.hasAccount email then (Except.error GdError.duplicateAccount, 0)
  else
    match authorize manual with
    | Except.error e => (Except.error e, 1)
    | Except.ok refreshToken =>
      (st.addAccount
        { email := email, clientId := clientId, clientSecret := clientSecret,
          refreshToken := refreshToken, accessToken := none, accessTokenExpiry := none }, 1)

/-- Embedding of DriveService.deleteAccount (drive-service.ts lines 44-47);
the in-memory drive-client cache it also clears is not part of the
durable state and is not modelled. -/
def DriveService.deleteAccount (st : AccountStorage) (email : String) :
    Bool × AccountStorage :=
  AccountStorage.deleteAccount st email

/-- Embedding of DriveService.setCredentials (drive-service.ts lines 53-55). -/
def DriveService.setCredentials (st : AccountStorage) (clientId clientSecret : String) :
    Except GdError AccountStorage :=
  AccountStorage.setCredentials st clientId clientSecret

/-- Embedding of DriveService.getCredentials (drive-service.ts lines 57-59). -/
def DriveService.getCredentials (st : AccountStorage) : Option ClientCredentials :=
  AccountStorage.getCredentials st

/-- Embedding of the accounts-add branch of handleAccounts
(cli.ts lines 220-230): the credentials precondition is checked before
DriveService.addAccount is called, so before any authorization flow. -/
def handleAccountsAdd (st : AccountStorage) (email : String) (manual : Bool)
    (authorize : Bool → Except GdError String) : Except GdError AccountStorage × Nat :=
  match DriveService.getCredentials st with
  | none => (Except.error GdError.notConfigured, 0)
  | some c => DriveService.addAccount st email c.clientId c.clientSecret manual authorize

/-- Parameters carried by the provider redirect, whether received on the
loopback listener or parsed from a pasted URL (spec.md section 4.3). -/
structure RedirectParams where
  code : String
  state : String
  error : Option String
deriving DecidableEq

/-- Result of the redirect-handling phase, instrumented with the number of
token-exchange requests issued to the provider. -/
structure ExchangeOutcome where
  result : Except GdError String
  exchangeCalls : Nat
deriving DecidableEq

/-- Modelled from the spec: drive-oauth-flow.ts is not in the tree.
Step 3 of the authorization protocol (spec.md section 4.3): if the echoed
state does not match the one generated for the session the flow fails
with StateMismatch and no code is exchanged; an error parameter means the
user denied consent; otherwise the code is exchanged (step 4), with
provider failures surfacing as TokenExchangeFailed. -/
def DriveOAuthFlow.handleRedirect (sessionState : String) (p : RedirectParams)
    (exchange : String → Except GdError String) : ExchangeOutcome :=
  if p.state ≠ sessionState then
    { result := Except.error GdError.stateMismatch, exchangeCalls := 0 }
  else if p.error.isSome then
    { result := Except.error GdError.userDenied, exchangeCalls := 0 }
  else
    match exchange p.code with
    | Except.ok refreshToken => { result := Except.ok refreshToken, exchangeCalls := 1 }
    | Except.error _ => { result := Except.error GdError.tokenExchangeFailed, exchangeCalls := 1 }

/-- Modelled from the spec: the cached access token is usable only when
present and not expiring within the 60 second safety margin
(spec.md section 4.4). -/
def TokenAccessor.tokenFresh (a : DriveAccount) (now : Nat) : Bool :=
  match a.accessToken, a.accessTokenExpiry with
  | some _, some exp => decide (now + 60 < exp)
  | _, _ => false

/-- Result of one resolve call, instrumented with the number of
refresh-token grants issued and the resulting store. -/
structure ResolveOutcome where
  token : Except GdError String
  refreshCalls : Nat
  store : AccountStorage
deriving DecidableEq

/-- Modelled from the spec: TokenAccessor.resolve (spec.md section 4.4).
A fresh cached token is returned unchanged; otherwise one refresh-token
grant runs: on success the new token and expiry are written back through
the store update, on failure the result is ReauthorizationRequired and
the store is left untouched. -/
def TokenAccessor.resolve (st : AccountStorage) (email : String) (now : Nat)
    (refreshGrant : String → Except GdError (String × Nat)) : ResolveOutcome :=
  match AccountStorage.getAccount st email with
  | none => { token := Except.error GdError.accountNotFound, refreshCalls := 0, store := st }
  | some a =>
    if TokenAccessor.tokenFresh a now then
      { token := Except.ok (a.accessToken.getD ""), refreshCalls := 0, store := st }
    else
      match refreshGrant a.refreshToken with
      | Except.ok (tok, exp) =>
        { token := Except.ok tok, refreshCalls := 1,
          store := AccountStorage.updateTokens st email tok exp }
      | Except.error _ =>
        { token := Except.error GdError.reauthorizationRequired, refreshCalls := 1, store := st }

/-- The single-quote character (codepoint 39). -/
def quoteChar : Char := Char.ofNat 39

/-- The backslash character (codepoint 92). -/
def backslashChar : Char := Char.ofNat 92

/-- One single-quote character as a string. -/
def sQuote : String := String.singleton quoteChar

/-- JavaScript String.prototype.includes: substring containment. -/
def jsIncludes (s sub : String) : Bool :=
  decide (sub.data <:+: s.data)

/-- Embedding of the folder clause built by DriveService.listFiles
(drive-service.ts line 100). -/
def folderClause (folderId : String) : String :=
  sQuote ++ folderId ++ sQuote ++ " in parents"

/-- Embedding of the query combination in DriveService.listFiles
(drive-service.ts lines 98-102): the caller query, conjoined with the
folder clause when a folderId is given.  A missing or empty option is
falsy in the source. -/
def DriveService.combinedQuery (query folderId : Option String) : String :=
  let q := query.getD ""
  match folderId with
  | none => q
  | some fid =>
    if fid = "" then q
    else if q = "" then folderClause fid
    else q ++ " and " ++ folderClause fid

/-- Embedding of the trashed-exclusion step in DriveService.listFiles
(drive-service.ts lines 104-106): when the combined query does not
contain the substring trashed, the clause trashed = false is conjoined. -/
def DriveService.effectiveListQuery (query folderId : Option String) : String :=
  let q := DriveService.combinedQuery query folderId
  if jsIncludes q "trashed" then q
  else if q = "" then "trashed = false"
  else q ++ " and trashed = false"

/-- Embedding of the global single-quote replacement performed by
DriveService.search (drive-service.ts line 389): every single-quote
character becomes backslash followed by single quote. -/
def escapeQuote : List Char → List Char
  | [] => []
  | c :: cs =>
    if c = quoteChar then backslashChar :: quoteChar :: escapeQuote cs
    else c :: escapeQuote cs

/-- String-level wrapper for the quote escaping of DriveService.search. -/
def jsEscapeQuotes (s : String) : String :=
  String.mk (escapeQuote s.data)

/-- Embedding of the query construction in DriveService.search
(drive-service.ts line 389). -/
def DriveService.searchQuery (query : String) : String :=
  "fullText contains " ++ sQuote ++ jsEscapeQuotes query ++ sQuote ++ " and trashed = false"

/-- The escape function as the claim states it: each single quote is
replaced by backslash followed by single quote, all other characters are
kept. -/
def escapeSpec (s : String) : String :=
  String.mk (s.data.flatMap (fun c =>
    if c = quoteChar then [backslashChar, quoteChar] else [c]))

/-- Every persisted record carries a non-empty refresh token. -/
abbrev GoodStore (st : AccountStorage) : Prop :=
  ∀ a ∈ st.accounts, a.refreshToken ≠ ""

/-- A store with no credentials and no accounts. -/
def stEmpty : AccountStorage := { credentials := none, accounts := [] }

/-- A sample account record. -/
def accAlice : DriveAccount :=
  { email := "alice", clientId := "cid", clientSecret := "cs",
    refreshToken := "rt0", accessToken := none, accessTokenExpiry := none }

/-- A store already holding the sample account. -/
def stWithAlice : AccountStorage := { credentials := none, accounts := [accAlice] }

/-- A refresh endpoint that always grants a token expiring at 1000. -/
def grantOk : String → Except GdError (String × Nat) :=
  fun _ => Except.ok ("tok1", 1000)

/-- A refresh endpoint that always fails with an invalid-grant class error. -/
def grantBad : String → Except GdError (String × Nat) :=
  fun _ => Except.error GdError.tokenExchangeFailed

/-- Helper: the membership probe agrees with the lookup. -/
theorem hasAccount_iff_getAccount (st : AccountStorage) (email : String) :
    AccountStorage.hasAccount st email = true ↔ AccountStorage.getAccount st email ≠ none := by
  unfold AccountStorage.hasAccount AccountStorage.getAccount
  simp [List.any_eq_true, Option.ne_none_iff_isSome, List.find?_isSome]

/-- C1: an add for an identity that already has a stored record fails with
the DuplicateAccount error before the authorization flow is started: the
authorize oracle, which performs all network and token-exchange calls,
runs zero times. -/
theorem duplicate_add_rejected_before_authorize
    (st : AccountStorage) (email clientId clientSecret : String) (manual : Bool)
    (authorize : Bool → Except GdError String)
    (h : AccountStorage.hasAccount st email = true) :
    DriveService.addAccount st email clientId clientSecret manual authorize
      = (Except.error GdError.duplicateAccount, 0) := by
  unfold DriveService.addAccount
  simp [h]

/-- Witness for C1 at a concrete store already holding the identity. -/
theorem duplicate_add_rejected_witness :
    DriveService.addAccount stWithAlice "alice" "cid2" "cs2" false (fun _ => Except.ok "rt1")
      = (Except.error GdError.duplicateAccount, 0) :=
  duplicate_add_rejected_before_authorize stWithAlice "alice" "cid2" "cs2" false
    (fun _ => Except.ok "rt1") (by decide)

/-- C2: a redirect whose echoed state differs from the state generated for
the session fails with StateMismatch and issues zero token-exchange
requests to the provider. -/
theorem forged_state_fails_without_exchange
    (sessionState : String) (p : RedirectParams)
    (exchange : String → Except GdError String)
    (h : p.state ≠ sessionState) :
    DriveOAuthFlow.handleRedirect sessionState p exchange
      = { result := Except.error GdError.stateMismatch, exchangeCalls := 0 } := by
  unfold DriveOAuthFlow.handleRedirect
  simp [h]

/-- Witness for C2 at a concrete forged state. -/
theorem forged_state_fails_witness :
    DriveOAuthFlow.handleRedirect "good"
      { code := "c1", state := "forged", error := none } (fun _ => Except.ok "rt1")
      = { result := Except.error GdError.stateMismatch, exchangeCalls := 0 } :=
  forged_state_fails_without_exchange "good"
    { code := "c1", state := "forged", error := none } (fun _ => Except.ok "rt1") (by decide)

/-- C5: remove returns whether a record for the identity existed (removing
a missing identity is not an error), and after the removal the lookup
reports not-found in every case. -/
theorem remove_reports_existence_then_not_found
    (st : AccountStorage) (email : String) :
    ((DriveService.deleteAccount st email).1 = true ↔
      AccountStorage.getAccount st email ≠ none) ∧
    AccountStorage.getAccount (DriveService.deleteAccount st email).2 email = none := by
  constructor
  · exact hasAccount_iff_getAccount st email
  · unfold DriveService.deleteAccount AccountStorage.deleteAccount AccountStorage.getAccount
    simp [List.find?_eq_none, List.mem_filter]

/-- C6: with no client credentials configured, getCredentials returns the
not-configured signal (none) rather than raising, and the accounts-add
command fails with NotConfigured before the authorization flow is
started (the authorize oracle runs zero times). -/
theorem missing_credentials_block_add
    (st : AccountStorage) (email : String) (manual : Bool)
    (authorize : Bool → Except GdError String)
    (h : st.credentials = none) :
    DriveService.getCredentials st = none ∧
    handleAccountsAdd st email manual authorize
      = (Except.error GdError.notConfigured, 0) := by
  have hg : DriveService.getCredentials st = none := h
  refine ⟨hg, ?_⟩
  unfold handleAccountsAdd
  rw [hg]

/-- Witness for C6 at the empty store. -/
theorem missing_credentials_block_add_witness :
    DriveService.getCredentials stEmpty = none ∧
    handleAccountsAdd stEmpty "alice" false (fun _ => Except.ok "rt1")
      = (Except.error GdError.notConfigured, 0) :=
  missing_credentials_block_add stEmpty "alice" false (fun _ => Except.ok "rt1") rfl

/-- C7: set validates both parts non-empty, persists the pair replacing
any prior value wholesale with no error on overwrite, and setting the
same pair twice leaves the stored state identical. -/
theorem set_credentials_validates_and_replaces
    (st : AccountStorage) (clientId clientSecret : String) :
    (clientId ≠ "" → clientSecret ≠ "" →
      AccountStorage.setCredentials st clientId clientSecret
        = Except.ok { st with credentials := some ⟨clientId, clientSecret⟩ }) ∧
    (clientId = "" ∨ clientSecret = "" →
      AccountStorage.setCredentials st clientId clientSecret
        = Except.error GdError.invalidCredentials) ∧
    (∀ st2, AccountStorage.setCredentials st clientId clientSecret = Except.ok st2 →
      AccountStorage.setCredentials st2 clientId clientSecret = Except.ok st2) := by
  refine ⟨?_, ?_, ?_⟩
  · intro h1 h2
    unfold AccountStorage.setCredentials
    rw [if_neg]
    push_neg
    exact ⟨h1, h2⟩
  · intro h
    unfold AccountStorage.setCredentials
    rw [if_pos h]
  · intro st2 h
    unfold AccountStorage.setCredentials at h ⊢
    by_cases hc : clientId = "" ∨ clientSecret = ""
    · rw [if_pos hc] at h
      exact absurd h (by simp)
    · rw [if_neg hc] at h
      injection h with h2
      subst h2
      rw [if_neg hc]

/-- Witness for C7: validation, wholesale replacement and idempotence at
concrete credentials. -/
theorem set_credentials_witness :
    AccountStorage.setCredentials stEmpty "cid" "cs"
      = Except.ok { stEmpty with credentials := some ⟨"cid", "cs"⟩ } ∧
    AccountStorage.setCredentials stEmpty "" "cs"
      = Except.error GdError.invalidCredentials ∧
    AccountStorage.setCredentials
        { stEmpty with credentials := some ⟨"cid", "cs"⟩ } "cid" "cs"
      = Except.ok { stEmpty with credentials := some ⟨"cid", "cs"⟩ } :=
  ⟨(set_credentials_validates_and_replaces stEmpty "cid" "cs").1 (by decide) (by decide),
   (set_credentials_validates_and_replaces stEmpty "" "cs").2.1 (Or.inl rfl),
   (set_credentials_validates_and_replaces stEmpty "cid" "cs").2.2
     { stEmpty with credentials := some ⟨"cid", "cs"⟩ } rfl⟩

/-- Helper: looking up an identity after the token update of that identity
yields the updated record. -/
theorem find_after_update (l : List DriveAccount) (email tok : String) (exp : Nat) :
    (l.map (fun a =>
        if a.email == email then
          { a with accessToken := some tok, accessTokenExpiry := some exp }
        else a)).find? (fun a => a.email == email)
      = (l.find? (fun a => a.email == email)).map
          (fun a => { a with accessToken := some tok, accessTokenExpiry := some exp }) := by
  have hpf : ((fun a : DriveAccount => a.email == email) ∘ (fun a =>
      if a.email == email then
        { a with accessToken := some tok, accessTokenExpiry := some exp }
      else a)) = (fun a : DriveAccount => a.email == email) := by
    funext a
    by_cases hb : a.email = email
    · simp [hb]
    · simp [hb]
  rw [List.find?_map, hpf]
  cases hf : l.find? (fun a => a.email == email) with
  | none => rfl
  | some a =>
    have ha := List.find?_some hf
    have hae : a.email = email := by simpa using ha
    simp [hae]

/-- Helper: the store-level form of find_after_update. -/
theorem getAccount_updateTokens (st : AccountStorage) (email tok : String) (exp : Nat) :
    AccountStorage.getAccount (AccountStorage.updateTokens st email tok exp) email
      = (AccountStorage.getAccount st email).map
          (fun a => { a with accessToken := some tok, accessTokenExpiry := some exp }) :=
  find_after_update st.accounts email tok exp

/-- C3: resolve returns a cached token unchanged, with no refresh call,
when it is present and not within the 60 second expiry margin; when the
cached token is absent or expired it performs exactly one refresh call,
persists the new token and expiry into the store, and an immediately
subsequent resolve (while the new token is still fresh) performs no
further refresh call. -/
theorem resolve_caches_and_refreshes_once
    (st : AccountStorage) (email : String) (now : Nat)
    (grant : String → Except GdError (String × Nat)) (a : DriveAccount)
    (hget : AccountStorage.getAccount st email = some a) :
    (TokenAccessor.tokenFresh a now = true →
      TokenAccessor.resolve st email now grant
        = { token := Except.ok (a.accessToken.getD ""), refreshCalls := 0, store := st }) ∧
    (TokenAccessor.tokenFresh a now = false →
      ∀ tok exp, grant a.refreshToken = Except.ok (tok, exp) →
        TokenAccessor.resolve st email now grant
          = { token := Except.ok tok, refreshCalls := 1,
              store := AccountStorage.updateTokens st email tok exp } ∧
        AccountStorage.getAccount (TokenAccessor.resolve st email now grant).store email
          = some { a with accessToken := some tok, accessTokenExpiry := some exp } ∧
        (now + 60 < exp →
          TokenAccessor.resolve (TokenAccessor.resolve st email now grant).store email now grant
            = { token := Except.ok tok, refreshCalls := 0,
                store := (TokenAccessor.resolve st email now grant).store })) := by
  constructor
  · intro hfresh
    unfold TokenAccessor.resolve
    rw [hget]
    simp [hfresh]
  · intro hstale tok exp hgrant
    have hres : TokenAccessor.resolve st email now grant
        = { token := Except.ok tok, refreshCalls := 1,
            store := AccountStorage.updateTokens st email tok exp } := by
      unfold TokenAccessor.resolve
      rw [hget]
      simp [hstale, hgrant]
    have hga : AccountStorage.getAccount
        (AccountStorage.updateTokens st email tok exp) email
        = some { a with accessToken := some tok, accessTokenExpiry := some exp } := by
      rw [getAccount_updateTokens, hget]
      rfl
    refine ⟨hres, ?_, ?_⟩
    · rw [hres]
      exact hga
    · intro hexp
      rw [hres]
      unfold TokenAccessor.resolve
      rw [hga]
      simp [TokenAccessor.tokenFresh, hexp]

/-- Witness for C3: on a stored account with no cached token, resolve
refreshes exactly once and a second resolve refreshes zero times. -/
theorem resolve_refreshes_once_witness :
    (TokenAccessor.resolve stWithAlice "alice" 0 grantOk).refreshCalls = 1 ∧
    (TokenAccessor.resolve (TokenAccessor.resolve stWithAlice "alice" 0 grantOk).store
        "alice" 0 grantOk).refreshCalls = 0 := by
  have h := (resolve_caches_and_refreshes_once stWithAlice "alice" 0 grantOk accAlice
      (by decide)).2 (by decide) "tok1" 1000 rfl
  refine ⟨?_, ?_⟩
  · rw [h.1]
  · rw [h.2.2 (by decide)]

/-- C4: when the refresh-token grant fails, resolve signals
ReauthorizationRequired and the resulting store is exactly the input
store: the known-bad refresh token stays in storage and the account is
not deleted. -/
theorem invalid_grant_signals_reauthorization
    (st : AccountStorage) (email : String) (now : Nat)
    (grant : String → Except GdError (String × Nat)) (a : DriveAccount) (e : GdError)
    (hget : AccountStorage.getAccount st email = some a)
    (hstale : TokenAccessor.tokenFresh a now = false)
    (hgrant : grant a.refreshToken = Except.error e) :
    TokenAccessor.resolve st email now grant
      = { token := Except.error GdError.reauthorizationRequired, refreshCalls := 1,
          store := st } := by
  unfold TokenAccessor.resolve
  rw [hget]
  simp [hstale, hgrant]

/-- Witness for C4 at a concrete account and failing grant. -/
theorem invalid_grant_witness :
    TokenAccessor.resolve stWithAlice "alice" 0 grantBad
      = { token := Except.error GdError.reauthorizationRequired, refreshCalls := 1,
          store := stWithAlice } :=
  invalid_grant_signals_reauthorization stWithAlice "alice" 0 grantBad accAlice
    GdError.tokenExchangeFailed (by decide) (by decide) rfl

/-- C8: starting from any store whose records all carry a non-empty
refresh token, every operation preserves the property: the store add
(which rejects a record with an empty refresh token rather than persist
it), the service-level add built on it, remove, the token accessor's
resolve, and set-credentials.  So a record without a usable refresh
token is never written to storage. -/
theorem refresh_token_never_empty
    (st : AccountStorage) (hst : GoodStore st) :
    (∀ a st2, AccountStorage.addAccount st a = Except.ok st2 → GoodStore st2) ∧
    (∀ email, GoodStore (AccountStorage.deleteAccount st email).2) ∧
    (∀ email clientId clientSecret manual authorize st2,
      (DriveService.addAccount st email clientId clientSecret manual authorize).1
        = Except.ok st2 → GoodStore st2) ∧
    (∀ email now grant, GoodStore (TokenAccessor.resolve st email now grant).store) ∧
    (∀ clientId clientSecret st2,
      AccountStorage.setCredentials st clientId clientSecret = Except.ok st2 →
        GoodStore st2) := by
  have hadd : ∀ a st2, AccountStorage.addAccount st a = Except.ok st2 → GoodStore st2 := by
    intro a st2 h
    unfold AccountStorage.addAccount at h
    by_cases h1 : st.hasAccount a.email
    · simp [h1] at h
    · by_cases h2 : a.refreshToken = ""
      · simp [h1, h2] at h
      · simp [h1, h2] at h
        subst h
        intro b hb
        simp [List.mem_append] at hb
        rcases hb with hb | hb
        · exact hst b hb
        · subst hb
          exact h2
  have hdel : ∀ email, GoodStore (AccountStorage.deleteAccount st email).2 := by
    intro email b hb
    simp [AccountStorage.deleteAccount, List.mem_filter] at hb
    exact hst b hb.1
  have hsvc : ∀ email clientId clientSecret manual authorize st2,
      (DriveService.addAccount st email clientId clientSecret manual authorize).1
        = Except.ok st2 → GoodStore st2 := by
    intro email cid cs m auth st2 h
    unfold DriveService.addAccount at h
    by_cases h1 : st.hasAccount email
    · simp [h1] at h
    · simp [h1] at h
      cases hasym : auth m with
      | error e =>
        rw [hasym] at h
        simp at h
      | ok rt =>
        rw [hasym] at h
        exact hadd _ _ h
  have hres : ∀ email now grant, GoodStore (TokenAccessor.resolve st email now grant).store := by
    intro email now grant
    cases hga : AccountStorage.getAccount st email with
    | none =>
      have hs : (TokenAccessor.resolve st email now grant).store = st := by
        unfold TokenAccessor.resolve
        rw [hga]
      rw [hs]
      exact hst
    | some a =>
      by_cases hf : TokenAccessor.tokenFresh a now
      · have hs : (TokenAccessor.resolve st email now grant).store = st := by
          unfold TokenAccessor.resolve
          rw [hga]
          simp [hf]
        rw [hs]
        exact hst
      · cases hg : grant a.refreshToken with
        | error e =>
          have hs : (TokenAccessor.resolve st email now grant).store = st := by
            unfold TokenAccessor.resolve
            rw [hga]
            simp [hf, hg]
          rw [hs]
          exact hst
        | ok pr =>
          obtain ⟨tok, exp⟩ := pr
          have hs : (TokenAccessor.resolve st email now grant).store
              = AccountStorage.updateTokens st email tok exp := by
            unfold TokenAccessor.resolve
            rw [hga]
            simp [hf, hg]
          rw [hs]
          intro b hb
          simp [AccountStorage.updateTokens, List.mem_map] at hb
          obtain ⟨c, hc, hcb⟩ := hb
          subst hcb
          by_cases hce : c.email = email
          · simp [hce]
            exact hst c hc
          · simp [hce]
            exact hst c hc
  have hset : ∀ clientId clientSecret st2,
      AccountStorage.setCredentials st clientId clientSecret = Except.ok st2 →
        GoodStore st2 := by
    intro cid cs st2 h
    unfold AccountStorage.setCredentials at h
    by_cases hc : cid = "" ∨ cs = ""
    · rw [if_pos hc] at h
      exact absurd h (by simp)
    · rw [if_neg hc] at h
      injection h with h2
      subst h2
      exact hst
  exact ⟨hadd, hdel, hsvc, hres, hset⟩

/-- Witness for C8: the preserved property after a concrete removal on a
concrete store satisfying it. -/
theorem refresh_token_never_empty_witness :
    GoodStore (AccountStorage.deleteAccount stWithAlice "alice").2 :=
  (refresh_token_never_empty stWithAlice (by decide)).2.1 "alice"

/-- Helper: the trashed-exclusion clause is a substring of any query it
was conjoined to. -/
theorem jsIncludes_append_clause (s : String) :
    jsIncludes (s ++ " and trashed = false") "trashed = false" = true := by
  unfold jsIncludes
  rw [decide_eq_true_eq]
  have h2 : (s ++ " and trashed = false").data
      = (s.data ++ " and ".data) ++ "trashed = false".data := by
    rw [String.data_append]
    rw [show (" and trashed = false").data = " and ".data ++ "trashed = false".data from rfl]
    rw [List.append_assoc]
  rw [h2]
  exact (List.suffix_append _ _).isInfix

/-- C9 counterexample: for the invocation with no caller query (so the
caller-supplied query does not contain the substring trashed) and
folderId trashed, the effective query does not contain the clause
trashed = false, because the source tests the combined query, whose
folder clause already mentions trashed. -/
theorem listFiles_trashed_counterexample :
    jsIncludes ((none : Option String).getD "") "trashed" = false ∧
    jsIncludes (DriveService.effectiveListQuery none (some "trashed")) "trashed = false"
      = false := by
  constructor
  · decide
  · decide

/-- C9 (amended): the clause trashed = false is conjoined to the effective
query exactly when the combined query (the caller query conjoined with
any folder clause) does not contain the substring trashed; when the
combined query does contain it, the query is sent unchanged and no
clause is added. -/
theorem listFiles_trashed_clause (query folderId : Option String) :
    (jsIncludes (DriveService.combinedQuery query folderId) "trashed" = false →
      jsIncludes (DriveService.effectiveListQuery query folderId) "trashed = false" = true) ∧
    (jsIncludes (DriveService.combinedQuery query folderId) "trashed" = true →
      DriveService.effectiveListQuery query folderId
        = DriveService.combinedQuery query folderId) := by
  constructor
  · intro h
    unfold DriveService.effectiveListQuery
    simp only [h, Bool.false_eq_true, if_false]
    by_cases hq : DriveService.combinedQuery query folderId = ""
    · simp [hq]
      decide
    · simp [hq]
      exact jsIncludes_append_clause (DriveService.combinedQuery query folderId)
  · intro h
    unfold DriveService.effectiveListQuery
    simp [h]

/-- Witness for C9: a caller query without trashed gets the clause; a
caller query mentioning trashed is sent unchanged. -/
theorem listFiles_trashed_clause_witness :
    jsIncludes (DriveService.effectiveListQuery (some "name contains abc") none)
      "trashed = false" = true ∧
    DriveService.effectiveListQuery (some "trashed = true") none
      = DriveService.combinedQuery (some "trashed = true") none :=
  ⟨(listFiles_trashed_clause (some "name contains abc") none).1 (by decide),
   (listFiles_trashed_clause (some "trashed = true") none).2 (by decide)⟩

/-- Helper: the character recursion of the quote escaping equals its
flat-map characterisation. -/
theorem escapeQuote_eq_flatMap (l : List Char) :
    escapeQuote l = l.flatMap (fun c =>
      if c = quoteChar then [backslashChar, quoteChar] else [c]) := by
  induction l with
  | nil => rfl
  | cons c cs ih =>
    by_cases hc : c = quoteChar
    · simp [escapeQuote, hc, ih]
    · simp [escapeQuote, hc, ih]

/-- C10: the query DriveService.search sends is exactly fullText contains,
then the quote, then the escaped caller query (every single-quote
character replaced by backslash followed by single quote, all other
characters kept), then the quote and the trashed exclusion; being a
function of the caller query alone it is deterministic. -/
theorem search_query_exact (s : String) :
    DriveService.searchQuery s
      = "fullText contains " ++ sQuote ++ escapeSpec s ++ sQuote
        ++ " and trashed = false" := by
  unfold DriveService.searchQuery jsEscapeQuotes escapeSpec
  rw [escapeQuote_eq_flatMap]
